import Mathlib

/-!
Verification of the ghostwriter-cli event-capture and durable-buffering
pipeline (src/src/main.rs): a shallow embedding of the data model, the
sensor callback, the processor loop, the stop handler and the session
signing logic, together with theorems settling the specification claims.
-/

set_option maxHeartbeats 1000000
set_option maxRecDepth 100000

namespace Ghostwriter

/-! ## Data model (src/src/main.rs lines 28-46) -/

/-- One captured keystroke record, `struct LogEvent` (main.rs lines 28-33). -/
structure LogEvent where
  timestamp : Int
  window_title : String
  event_type : String
deriving DecidableEq, Repr

/-- `struct Header` (main.rs lines 35-39). -/
structure Header where
  version : String
  algorithm : String
deriving DecidableEq, Repr

/-- `struct SignedSession` (main.rs lines 41-46). -/
structure SignedSession where
  header : Header
  payload : List LogEvent
  signature : String
deriving DecidableEq, Repr

/-- `const BATCH_SIZE: usize = 20` (main.rs line 24). -/
def BATCH_SIZE : Nat := 20

/-- `const AUTO_SAVE_INTERVAL: Duration = Duration::from_secs(60)` (main.rs line 25), in milliseconds. -/
def AUTO_SAVE_INTERVAL_MS : Nat := 60000

/-- `const SALT: &str = "GHOSTWRITER_SECURE_SALT_V1"` (main.rs line 26). -/
def SALT : String := "GHOSTWRITER_SECURE_SALT_V1"

/-! ## JSON serialization, as serde_json produces it

`serde_json::to_string` emits struct fields in declaration order, with no
whitespace; strings are escaped with the two-character escapes for quote,
backslash, backspace, form feed, newline, carriage return and tab, and
lowercase `\u00XX` for the remaining control characters. -/

/-- Lowercase hexadecimal digit, as in serde_json's escape table and `hex::encode`. -/
def hexDigitLower (n : Nat) : Char :=
  if n < 10 then Char.ofNat (48 + n) else Char.ofNat (87 + n)

/-- serde_json escaping of one character inside a JSON string literal. -/
def escapeChar (c : Char) : List Char :=
  if c = Char.ofNat 34 then [Char.ofNat 92, Char.ofNat 34]
  else if c = Char.ofNat 92 then [Char.ofNat 92, Char.ofNat 92]
  else if c = Char.ofNat 8 then [Char.ofNat 92, Char.ofNat 98]
  else if c = Char.ofNat 12 then [Char.ofNat 92, Char.ofNat 102]
  else if c = Char.ofNat 10 then [Char.ofNat 92, Char.ofNat 110]
  else if c = Char.ofNat 13 then [Char.ofNat 92, Char.ofNat 114]
  else if c = Char.ofNat 9 then [Char.ofNat 92, Char.ofNat 116]
  else if c.toNat < 32 then
    [Char.ofNat 92, Char.ofNat 117, Char.ofNat 48, Char.ofNat 48,
     hexDigitLower (c.toNat / 16), hexDigitLower (c.toNat % 16)]
  else [c]

/-- A JSON string literal: quote, escaped characters, quote. -/
def jsonString (s : String) : String :=
  String.mk (Char.ofNat 34 :: (s.data.map escapeChar).flatten ++ [Char.ofNat 34])

/-- Compact serialization of one LogEvent, exactly as
`serde_json::to_string` serializes the derived `Serialize` for `LogEvent`
(fields in declaration order). -/
def logEventToJson (e : LogEvent) : String :=
  "\x7b\"timestamp\":" ++ toString e.timestamp ++
  ",\"window_title\":" ++ jsonString e.window_title ++
  ",\"event_type\":" ++ jsonString e.event_type ++ "\x7d"

/-- Compact serialization of a buffer (`Vec<LogEvent>`) as a JSON array,
exactly as `serde_json::to_string(buffer)` in `save_signed_session`
(main.rs line 291) and `serde_json::to_writer` in `dump_to_temp`
(main.rs line 285). -/
def payloadToJson (buffer : List LogEvent) : String :=
  "[" ++ String.intercalate "," (buffer.map logEventToJson) ++ "]"

/-! ## UTF-8 encoding

The Rust hasher consumes the UTF-8 bytes of the JSON string. Bytes are
modelled as natural numbers below 256. -/

/-- UTF-8 encoding of a single Unicode scalar value. -/
def utf8EncodeChar (c : Char) : List Nat :=
  let n := c.toNat
  if n < 128 then [n]
  else if n < 2048 then [192 + n / 64, 128 + n % 64]
  else if n < 65536 then [224 + n / 4096, 128 + (n / 64) % 64, 128 + n % 64]
  else [240 + n / 262144, 128 + (n / 4096) % 64, 128 + (n / 64) % 64, 128 + n % 64]

/-- UTF-8 byte sequence of a string. -/
def utf8Encode (s : String) : List Nat :=
  (s.data.map utf8EncodeChar).flatten

/-! ## SHA-256 (the `sha2::Sha256` digest used at main.rs lines 295-298) -/

/-- Truncation to a 32-bit word. -/
def w32 (n : Nat) : Nat := n % 4294967296

/-- 32-bit right rotation. -/
def rotr (x n : Nat) : Nat :=
  w32 ((x >>> n) ||| (x <<< (32 - n)))

def bigSigma0 (x : Nat) : Nat := (rotr x 2) ^^^ (rotr x 13) ^^^ (rotr x 22)

def bigSigma1 (x : Nat) : Nat := (rotr x 6) ^^^ (rotr x 11) ^^^ (rotr x 25)

def smallSigma0 (x : Nat) : Nat := (rotr x 7) ^^^ (rotr x 18) ^^^ (x >>> 3)

def smallSigma1 (x : Nat) : Nat := (rotr x 17) ^^^ (rotr x 19) ^^^ (x >>> 10)

/-- The 64 SHA-256 round constants, written in decimal. -/
def shaK : List Nat :=
  [1116352408, 1899447441, 3049323471, 3921009573,
   961987163, 1508970993, 2453635748, 2870763221,
   3624381080, 310598401, 607225278, 1426881987,
   1925078388, 2162078206, 2614888103, 3248222580,
   3835390401, 4022224774, 264347078, 604807628,
   770255983, 1249150122, 1555081692, 1996064986,
   2554220882, 2821834349, 2952996808, 3210313671,
   3336571891, 3584528711, 113926993, 338241895,
   666307205, 773529912, 1294757372, 1396182291,
   1695183700, 1986661051, 2177026350, 2456956037,
   2730485921, 2820302411, 3259730800, 3345764771,
   3516065817, 3600352804, 4094571909, 275423344,
   430227734, 506948616, 659060556, 883997877,
   958139571, 1322822218, 1537002063, 1747873779,
   1955562222, 2024104815, 2227730452, 2361852424,
   2428436474, 2756734187, 3204031479, 3329325298]

/-- The SHA-256 initial hash value, written in decimal. -/
def shaH0 : List Nat :=
  [1779033703, 3144134277, 1013904242, 2773480762,
   1359893119, 2600822924, 528734635, 1541459225]

/-- Big-endian byte decomposition of a natural number into n bytes. -/
def natToBytesBE : Nat → Nat → List Nat
  | 0, _ => []
  | n + 1, x => natToBytesBE n (x / 256) ++ [x % 256]

/-- SHA-256 padding: append 0x80, zeros to 56 mod 64, then the bit length
as 8 big-endian bytes. -/
def padMessage (ms : List Nat) : List Nat :=
  ms ++ 128 :: List.replicate ((119 - ms.length % 64) % 64) 0 ++ natToBytesBE 8 (ms.length * 8)

/-- Split into 64-byte chunks (structural recursion on a fuel bound). -/
def chunks64Aux : Nat → List Nat → List (List Nat)
  | 0, _ => []
  | _, [] => []
  | fuel + 1, b :: rest => ((b :: rest).take 64) :: chunks64Aux fuel ((b :: rest).drop 64)

/-- Split into 64-byte chunks. -/
def chunks64 (l : List Nat) : List (List Nat) := chunks64Aux l.length l

/-- Group bytes into big-endian 32-bit words. -/
def bytesToWords : List Nat → List Nat
  | b0 :: b1 :: b2 :: b3 :: rest =>
      (b0 * 16777216 + b1 * 65536 + b2 * 256 + b3) :: bytesToWords rest
  | _ => []

/-- Extend 16 message words to the 64-entry message schedule. -/
def schedule (w16 : List Nat) : List Nat :=
  (List.range 48).foldl
    (fun ws _ =>
      let n := ws.length
      ws ++ [w32 (smallSigma1 (ws.getD (n - 2) 0) + ws.getD (n - 7) 0 +
                  smallSigma0 (ws.getD (n - 15) 0) + ws.getD (n - 16) 0)])
    w16

/-- One SHA-256 compression round. -/
def shaRound (st : List Nat) (wk : Nat × Nat) : List Nat :=
  match st with
  | [a, b, c, d, e, f, g, h] =>
      let t1 := w32 (h + bigSigma1 e + ((e &&& f) ^^^ ((4294967295 - e) &&& g)) + wk.2 + wk.1)
      let t2 := w32 (bigSigma0 a + ((a &&& b) ^^^ (a &&& c) ^^^ (b &&& c)))
      [w32 (t1 + t2), a, b, c, w32 (d + t1), e, f, g]
  | _ => st

/-- Compress one 64-byte chunk into the running hash state. -/
def compressChunk (hs : List Nat) (chunk : List Nat) : List Nat :=
  let ws := schedule (bytesToWords chunk)
  let st := (ws.zip shaK).foldl shaRound hs
  (hs.zip st).map (fun p => w32 (p.1 + p.2))

/-- SHA-256 of a byte sequence, as 32 bytes. -/
def sha256 (ms : List Nat) : List Nat :=
  ((chunks64 (padMessage ms)).foldl compressChunk shaH0).map (natToBytesBE 4) |>.flatten

/-- `hex::encode`: lowercase hexadecimal of a byte sequence (main.rs line 299). -/
def hexEncode (bs : List Nat) : String :=
  String.mk ((bs.map (fun b => [hexDigitLower (b / 16), hexDigitLower (b % 16)])).flatten)

/-! ## Input Sensor (main.rs lines 154-168)

The sensor thread registers an rdev callback: when the shared recording
flag reads true it matches on the event type and sends the current
timestamp for a key press; every other event type falls into the
wildcard arm and nothing is sent. -/

/-- The rdev event types observable by the listener callback. Key
identity and pointer coordinates are carried but never read by the
callback. -/
inductive RdevEventType where
  | keyPress (key : Nat)
  | keyRelease (key : Nat)
  | buttonPress (button : Nat)
  | buttonRelease (button : Nat)
  | mouseMove (x y : Int)
  | wheel (dx dy : Int)
deriving DecidableEq, Repr

/-- Whether an event is a key press. -/
def RdevEventType.isKeyPress : RdevEventType → Bool
  | .keyPress _ => true
  | _ => false

/-- The sensor callback (main.rs lines 155-164): returns the timestamp
sent on the channel, or none when nothing is sent. -/
def sensorCallback (isRecording : Bool) (nowMs : Int) (ev : RdevEventType) : Option Int :=
  if isRecording then
    match ev with
    | .keyPress _ => some nowMs
    | _ => none
  else none

/-! ## Buffering Processor (`process_logs`, main.rs lines 236-276) -/

/-- Outcome of `rx.recv_timeout(Duration::from_millis(100))`. -/
inductive RecvResult where
  | ok (ts : Int)
  | timeout
  | disconnected
deriving DecidableEq, Repr

/-- `get_active_window()` resolution (main.rs lines 243-246): the window
title on success, the "Unknown" sentinel on failure. -/
def resolveWindowTitle : Option String → String
  | some title => title
  | none => "Unknown"

/-- Processor-visible state: the shared buffer and the content of the
temp-snapshot file (none while the file has never been written). -/
structure ProcState where
  buffer : List LogEvent
  tempFile : Option String
deriving DecidableEq, Repr

/-- The auto-save block (main.rs lines 266-274) executed when
`last_auto_save.elapsed() >= AUTO_SAVE_INTERVAL`: lock the buffer; when
non-empty, `dump_to_temp` opens the fixed temp file with truncate and
writes the whole buffer as one compact JSON array (main.rs lines
278-287). A failed dump only logs and leaves the snapshot as it was; the
buffer is never modified here. -/
def autoSaveCheck (s : ProcState) (elapsedMs : Nat) (dumpOk : Bool) : ProcState :=
  if AUTO_SAVE_INTERVAL_MS ≤ elapsedMs then
    if s.buffer.isEmpty then s
    else if dumpOk then { s with tempFile := some (payloadToJson s.buffer) } else s
  else s

/-- One iteration of the `process_logs` loop (main.rs lines 240-275):
on a received timestamp, resolve the window title, build a LogEvent and
append it, then run the auto-save check; on timeout, run only the
auto-save check; on disconnect, `break` out immediately (the auto-save
block is not reached). The Bool is true when the loop exits. -/
def processIteration (s : ProcState) (recv : RecvResult) (window : Option String)
    (elapsedMs : Nat) (dumpOk : Bool) : ProcState × Bool :=
  match recv with
  | .ok ts =>
      let ev : LogEvent :=
        { timestamp := ts, window_title := resolveWindowTitle window, event_type := "keypress" }
      (autoSaveCheck { s with buffer := s.buffer ++ [ev] } elapsedMs dumpOk, false)
  | .timeout => (autoSaveCheck s elapsedMs dumpOk, false)
  | .disconnected => (s, true)

/-! ## Session signing (`save_signed_session`, main.rs lines 289-317) -/

/-- The signature (main.rs lines 291-299):
`hex::encode(Sha256(payload_json bytes, then SALT bytes))`. -/
def computeSignature (buffer : List LogEvent) : String :=
  hexEncode (sha256 (utf8Encode (payloadToJson buffer) ++ utf8Encode SALT))

/-- The SignedSession value built at main.rs lines 302-309. -/
def save_signed_session (buffer : List LogEvent) : SignedSession :=
  { header := { version := "1.0", algorithm := "HMAC-SHA256" },
    payload := buffer,
    signature := computeSignature buffer }

/-- serde_json pretty printing of one LogEvent at a given indentation
prefix (two-space indent steps, a space after each colon). -/
def prettyLogEvent (ind : String) (e : LogEvent) : String :=
  ind ++ "\x7b\n" ++
  ind ++ "  \"timestamp\": " ++ toString e.timestamp ++ ",\n" ++
  ind ++ "  \"window_title\": " ++ jsonString e.window_title ++ ",\n" ++
  ind ++ "  \"event_type\": " ++ jsonString e.event_type ++ "\n" ++
  ind ++ "\x7d"

/-- serde_json pretty printing of the payload array as it appears inside
the session file (value of the "payload" key at nesting depth 1). -/
def prettyPayload (buffer : List LogEvent) : String :=
  if buffer.isEmpty then "[]"
  else "[\n" ++ String.intercalate ",\n" (buffer.map (prettyLogEvent "    ")) ++ "\n  ]"

/-- `serde_json::to_writer_pretty` output for a SignedSession
(main.rs line 314). -/
def prettySession (s : SignedSession) : String :=
  "\x7b\n  \"header\": \x7b\n    \"version\": " ++ jsonString s.header.version ++
  ",\n    \"algorithm\": " ++ jsonString s.header.algorithm ++
  "\n  \x7d,\n  \"payload\": " ++ prettyPayload s.payload ++
  ",\n  \"signature\": " ++ jsonString s.signature ++ "\n\x7d"

/-- The bytes `save_signed_session` writes to the session file. -/
def sessionFileContent (buffer : List LogEvent) : String :=
  prettySession (save_signed_session buffer)

/-! ## Filesystem and the stop handler (main.rs lines 191-211) -/

/-- A filesystem as an association of paths to file contents. -/
abbrev FileSystem := List (String × String)

/-- `File::create` then write (main.rs line 312): truncates an existing
file at the path, creates it otherwise. -/
def fsWrite (fs : FileSystem) (path content : String) : FileSystem :=
  if fs.any (fun f => f.1 = path) then
    fs.map (fun f => if f.1 = path then (path, content) else f)
  else fs ++ [(path, content)]

/-- `get_session_file_path_timestamped` (main.rs lines 56-63): the file
name component `Session_<unix_seconds>.gw`. -/
def sessionFileName (nowSeconds : Int) : String :=
  "Session_" ++ toString nowSeconds ++ ".gw"

/-- Result of the stop-menu branch: the recording flag, the shared
buffer, the filesystem, the blocking error dialogs shown, and how many
times `save_signed_session` was invoked. -/
structure StopResult where
  isRecording : Bool
  buffer : List LogEvent
  files : FileSystem
  errorDialogs : List String
  saveAttempts : Nat
deriving DecidableEq, Repr

/-- The stop branch (main.rs lines 191-211): clear the recording flag;
lock the buffer; when non-empty and the path resolves, attempt
`save_signed_session` exactly once, showing a blocking error dialog if
it fails; then drop the lock, re-acquire it and clear the buffer
unconditionally. `pathOk` is `get_session_file_path_timestamped`
succeeding; `saveOk` is `save_signed_session` succeeding (on failure the
filesystem is modelled as unchanged). -/
def stopHandler (buffer : List LogEvent) (fs : FileSystem) (nowSeconds : Int)
    (pathOk saveOk : Bool) : StopResult :=
  if buffer.isEmpty then
    { isRecording := false, buffer := [], files := fs, errorDialogs := [], saveAttempts := 0 }
  else if pathOk then
    if saveOk then
      { isRecording := false, buffer := [],
        files := fsWrite fs (sessionFileName nowSeconds) (sessionFileContent buffer),
        errorDialogs := [], saveAttempts := 1 }
    else
      { isRecording := false, buffer := [], files := fs,
        errorDialogs := ["Failed to save session"], saveAttempts := 1 }
  else
    { isRecording := false, buffer := [], files := fs, errorDialogs := [], saveAttempts := 0 }

/-! ## Interleaving of lock-protected sections on the shared buffer

The stop branch holds the mutex twice: once for the read-and-save
section (main.rs lines 196-208, released by the explicit `drop` at line
210) and once more for the clear (line 211). The processor's append
(lines 254-255) is its own lock acquisition. Each lock-protected section
is one atomic action; a trace is any interleaving of such actions. -/

/-- One lock-protected section touching the shared buffer. -/
inductive BufferAction where
  | stopSaveSection (nowSeconds : Int) (pathOk saveOk : Bool)
  | stopClearSection
  | procAppendSection (e : LogEvent)
deriving DecidableEq, Repr

/-- Shared state acted on by the sections: the buffer, the filesystem,
and the multiset of events ever written into a session file. -/
structure SharedState where
  buffer : List LogEvent
  files : FileSystem
  persisted : List LogEvent
deriving DecidableEq, Repr

/-- Effect of one lock-protected section (each mirrors the code it names
in the section comment above). -/
def runAction (s : SharedState) : BufferAction → SharedState
  | .stopSaveSection now pathOk saveOk =>
      if s.buffer.isEmpty then s
      else if pathOk then
        if saveOk then
          { s with files := fsWrite s.files (sessionFileName now) (sessionFileContent s.buffer),
                   persisted := s.persisted ++ s.buffer }
        else s
      else s
  | .stopClearSection => { s with buffer := [] }
  | .procAppendSection e => { s with buffer := s.buffer ++ [e] }

/-- Run a trace of lock-protected sections in order. -/
def runTrace (s : SharedState) (tr : List BufferAction) : SharedState :=
  tr.foldl runAction s

/-! ## The append-only logging variant's flush loop

Modelled from the spec: the append-only logging variant's flush policy
(spec section 4.2) — its loop is not part of src/src/main.rs, where only
its declarations survive (`BATCH_SIZE` at line 24, unused, and the fixed
`session.json` path of `get_session_file_path` at lines 48-54). Flush
when the buffer holds at least BATCH_SIZE (20) records or at least
FLUSH_INTERVAL (5 s) elapsed since the last flush: append every buffered
record as one newline-delimited JSON line to the session file, clear the
buffer, reset the flush timer; otherwise change nothing. -/

/-- Modelled from the spec: the append-only variant's `FLUSH_INTERVAL`
(5 seconds), absent from src/src/main.rs. -/
def FLUSH_INTERVAL_MS : Nat := 5000

/-- Modelled from the spec: state of the append-only variant's loop —
the buffer, the appended session-file content, and the time since the
last flush. -/
structure FlushState where
  buffer : List LogEvent
  sessionFile : String
  elapsedSinceFlushMs : Nat
deriving DecidableEq, Repr

/-- One newline-delimited JSON line per buffered record. -/
def ndjsonLines (buffer : List LogEvent) : String :=
  String.join (buffer.map (fun e => logEventToJson e ++ "\n"))

/-- Modelled from the spec: the append-only variant's flush-condition
check, run after every receive or timeout. -/
def flushCheck (s : FlushState) : FlushState :=
  if BATCH_SIZE ≤ s.buffer.length ∨ FLUSH_INTERVAL_MS ≤ s.elapsedSinceFlushMs then
    { buffer := [],
      sessionFile := s.sessionFile ++ ndjsonLines s.buffer,
      elapsedSinceFlushMs := 0 }
  else s

/-! ## Concrete sample data used by witnesses and counterexamples -/

/-- A sample captured keystroke. -/
def demoEvent : LogEvent :=
  { timestamp := 1700000000000, window_title := "Notepad", event_type := "keypress" }

/-- A second, distinct sample keystroke. -/
def demoEvent2 : LogEvent :=
  { timestamp := 1700000000001, window_title := "Editor", event_type := "keypress" }

/-- A processor state holding one residual buffered event and no
temp-snapshot file yet. -/
def residualState : ProcState := { buffer := [demoEvent], tempFile := none }

/-! ## Supporting lemmas -/

/-- UTF-8 encoding distributes over string concatenation, so hashing the
payload bytes then the salt bytes equals hashing the concatenation. -/
theorem utf8Encode_append (a b : String) :
    utf8Encode (a ++ b) = utf8Encode a ++ utf8Encode b := by
  rcases a with ⟨as⟩; rcases b with ⟨bs⟩
  show (List.map utf8EncodeChar (as ++ bs)).flatten = _
  simp [utf8Encode]

/-- The embedded digest agrees with the FIPS 180-4 test vector for
"abc", pinning the SHA-256 model to the function `sha2::Sha256`
computes. -/
theorem sha256_matches_fips_vector :
    hexEncode (sha256 (utf8Encode "abc"))
      = "ba7816bf8f01cfea414140de5dae2223b00361a396177a9cb410ff61f20015ad" := by
  decide

/-! ## Claim theorems -/

/-- Claim C4: a timestamp is emitted onto the event channel if and only
if the event is a key press and the recording flag is true at that
moment; the emitted value is the current wall-clock timestamp; all other
event kinds never reach the channel regardless of recording state. -/
theorem sensor_emits_iff_recording_keypress (r : Bool) (nowMs : Int) (ev : RdevEventType) :
    (sensorCallback r nowMs ev = some nowMs ↔ (r = true ∧ ev.isKeyPress = true))
    ∧ (ev.isKeyPress = false → sensorCallback r nowMs ev = none)
    ∧ (∀ t, sensorCallback r nowMs ev = some t → t = nowMs) := by
  cases r <;> cases ev <;> simp [sensorCallback, RdevEventType.isKeyPress]

/-- Witness for C4: with recording on, a mouse-move emits nothing, and a
key press emits exactly the current timestamp. -/
theorem sensor_emits_iff_recording_keypress_witness :
    sensorCallback true 42 (RdevEventType.mouseMove 1 2) = none ∧ (42 : Int) = 42 :=
  ⟨(sensor_emits_iff_recording_keypress true 42 (RdevEventType.mouseMove 1 2)).2.1 rfl,
   (sensor_emits_iff_recording_keypress true 42 (RdevEventType.keyPress 3)).2.2 42 rfl⟩

/-- Claim C7: a stop command with an empty buffer produces no session
file (the filesystem is untouched), shows no error dialog, attempts no
save, and simply resets the recording state. -/
theorem stop_empty_buffer_skips_save (fs : FileSystem) (now : Int) (pathOk saveOk : Bool) :
    stopHandler [] fs now pathOk saveOk
      = { isRecording := false, buffer := [], files := fs,
          errorDialogs := [], saveAttempts := 0 } := by
  simp [stopHandler]

/-- Claim C2 (amended): on channel disconnect the processor exits its
loop immediately — the state is returned unchanged (no flush of residual
buffered events, not even the auto-save block) and no error is
propagated (the step is total). -/
theorem disconnect_exits_without_flush (s : ProcState) (window : Option String)
    (elapsedMs : Nat) (dumpOk : Bool) :
    processIteration s .disconnected window elapsedMs dumpOk = (s, true) := rfl

/-- Counterexample for C2 as stated: with one residual buffered event
and the auto-save interval long since due, the disconnect step exits the
loop leaving the buffer still holding the event and the snapshot file
never written — no final flush attempt of the residual event occurs. -/
theorem disconnect_no_final_flush_counterexample :
    residualState.buffer = [demoEvent]
    ∧ processIteration residualState .disconnected none 100000 true = (residualState, true)
    ∧ (processIteration residualState .disconnected none 100000 true).1.tempFile = none := by
  exact ⟨rfl, rfl, rfl⟩

/-- Claim C5: whenever the auto-save interval (60 s) has elapsed, a
non-empty buffer is serialized wholesale and fully overwrites the
temp-snapshot file (the new content is the serialization of the buffer
alone, independent of the previous file content) without clearing the
buffer; with an empty buffer the write is skipped and nothing changes;
the auto-save check never modifies the buffer. -/
theorem autosave_overwrites_snapshot (s : ProcState) (elapsedMs : Nat) (dumpOk : Bool)
    (hdue : AUTO_SAVE_INTERVAL_MS ≤ elapsedMs) :
    (s.buffer ≠ [] → dumpOk = true →
       autoSaveCheck s elapsedMs dumpOk = { s with tempFile := some (payloadToJson s.buffer) })
    ∧ (s.buffer = [] → autoSaveCheck s elapsedMs dumpOk = s)
    ∧ (autoSaveCheck s elapsedMs dumpOk).buffer = s.buffer := by
  rcases s with ⟨buf, tmp⟩
  cases buf <;> cases dumpOk <;> simp [autoSaveCheck, hdue]

/-- Witness for C5: with the interval due, a singleton buffer and a
stale snapshot, auto-save replaces the snapshot with the serialized
buffer and keeps the buffer. -/
theorem autosave_overwrites_snapshot_witness :
    autoSaveCheck { buffer := [demoEvent], tempFile := some "stale" } 60000 true
      = { buffer := [demoEvent], tempFile := some (payloadToJson [demoEvent]) } :=
  (autosave_overwrites_snapshot { buffer := [demoEvent], tempFile := some "stale" } 60000 true
    (by decide)).1 (by decide) rfl

/-- Claim C6: after every stop-triggered finalization attempt the buffer
is cleared unconditionally — success, failure, or no attempt at all —
the recording flag is reset, the save is attempted at most once (never
retried), and a save failure is surfaced through a blocking error
dialog. -/
theorem stop_clears_buffer_unconditionally (buffer : List LogEvent) (fs : FileSystem)
    (now : Int) (pathOk saveOk : Bool) :
    (stopHandler buffer fs now pathOk saveOk).buffer = []
    ∧ (stopHandler buffer fs now pathOk saveOk).isRecording = false
    ∧ (stopHandler buffer fs now pathOk saveOk).saveAttempts ≤ 1
    ∧ (buffer ≠ [] → pathOk = true → saveOk = false →
        (stopHandler buffer fs now pathOk saveOk).errorDialogs = ["Failed to save session"]
        ∧ (stopHandler buffer fs now pathOk saveOk).saveAttempts = 1) := by
  cases buffer <;> cases pathOk <;> cases saveOk <;> simp [stopHandler]

/-- Witness for C6: a failing save on a non-empty buffer clears the
buffer, shows the blocking dialog and attempts the save exactly once. -/
theorem stop_clears_buffer_unconditionally_witness :
    (stopHandler [demoEvent] [] 100 true false).errorDialogs = ["Failed to save session"]
    ∧ (stopHandler [demoEvent] [] 100 true false).saveAttempts = 1 :=
  (stop_clears_buffer_unconditionally [demoEvent] [] 100 true false).2.2.2
    (by decide) rfl rfl

/-- Claim C3: the session signature is the hex encoding of the digest of
the serialized payload concatenated with the fixed compile-time salt,
and it is deterministic: any two buffers with the same serialized
payload receive the identical signature. -/
theorem signature_hex_digest_deterministic (b1 b2 : List LogEvent)
    (h : payloadToJson b1 = payloadToJson b2) :
    (save_signed_session b1).signature
      = hexEncode (sha256 (utf8Encode (payloadToJson b1 ++ SALT)))
    ∧ (save_signed_session b1).signature = (save_signed_session b2).signature := by
  constructor
  · show computeSignature b1 = _
    rw [computeSignature, utf8Encode_append]
  · show computeSignature b1 = computeSignature b2
    rw [computeSignature, computeSignature, h]

/-- Witness for C3: re-hashing the identical serialized payload
reproduces the identical signature on a concrete buffer. -/
theorem signature_hex_digest_deterministic_witness :
    (save_signed_session [demoEvent]).signature
      = hexEncode (sha256 (utf8Encode (payloadToJson [demoEvent] ++ SALT)))
    ∧ (save_signed_session [demoEvent]).signature
      = (save_signed_session [demoEvent]).signature :=
  signature_hex_digest_deterministic [demoEvent] [demoEvent] rfl

/-- Claim C1: in the append-only variant's loop a flush is triggered
exactly when the buffered count reaches BATCH_SIZE (20) or the flush
interval (5 s) has elapsed, whichever comes first; a flush appends each
buffered record as one newline-delimited JSON line to the session file,
clears the buffer and resets the flush timer; otherwise the state is
left unchanged. (The flush loop is modelled from the spec; only its
declarations remain in src/src/main.rs.) -/
theorem flush_on_batch_or_interval (s : FlushState) :
    (BATCH_SIZE ≤ s.buffer.length ∨ FLUSH_INTERVAL_MS ≤ s.elapsedSinceFlushMs →
       flushCheck s = { buffer := [],
                        sessionFile := s.sessionFile ++ ndjsonLines s.buffer,
                        elapsedSinceFlushMs := 0 })
    ∧ (s.buffer.length < BATCH_SIZE → s.elapsedSinceFlushMs < FLUSH_INTERVAL_MS →
       flushCheck s = s) := by
  constructor
  · intro h
    unfold flushCheck
    rw [if_pos h]
  · intro h1 h2
    unfold flushCheck
    rw [if_neg]
    rintro (h | h)
    · exact absurd h (Nat.not_le.mpr h1)
    · exact absurd h (Nat.not_le.mpr h2)

/-- Witness for C1, both boundary conditions: 20 buffered events flush
immediately with no timeout, while 19 events one millisecond before the
interval do not flush. -/
theorem flush_on_batch_or_interval_witness :
    flushCheck { buffer := List.replicate 20 demoEvent, sessionFile := "",
                 elapsedSinceFlushMs := 0 }
      = { buffer := [], sessionFile := "" ++ ndjsonLines (List.replicate 20 demoEvent),
          elapsedSinceFlushMs := 0 }
    ∧ flushCheck { buffer := List.replicate 19 demoEvent, sessionFile := "",
                   elapsedSinceFlushMs := 4999 }
      = { buffer := List.replicate 19 demoEvent, sessionFile := "",
          elapsedSinceFlushMs := 4999 } :=
  ⟨(flush_on_batch_or_interval _).1 (Or.inl (by decide)),
   (flush_on_batch_or_interval _).2 (by decide) (by decide)⟩

/-- Counterexample for C8 as stated: two stops with non-empty buffers in
the same unix second (timestamp 100) produce the same file name
`Session_100.gw`, and the second stop's `File::create` truncates the
first session file — its distinct content is gone from the filesystem,
so the session file is not "never overwritten". -/
theorem same_second_stop_overwrites_counterexample :
    sessionFileName 100 = "Session_100.gw"
    ∧ (stopHandler [demoEvent] [] 100 true true).files
        = [("Session_100.gw", sessionFileContent [demoEvent])]
    ∧ (stopHandler [demoEvent2] (stopHandler [demoEvent] [] 100 true true).files
         100 true true).files
        = [("Session_100.gw", sessionFileContent [demoEvent2])]
    ∧ sessionFileContent [demoEvent] ≠ sessionFileContent [demoEvent2] := by
  refine ⟨by decide, by decide, by decide, by decide⟩

/-- Claim C8 (amended): each stop with a non-empty buffer writes the
SignedSession envelope (header version "1.0" and algorithm
"HMAC-SHA256", the full ordered buffer as payload, the computed
signature), pretty-printed, to `Session_<unix_seconds>.gw`; when no file
of that name exists the write is a pure append to the filesystem (no
existing file is modified), and the buffer is then cleared. Stops in the
same unix second reuse the same name and truncate the earlier file. -/
theorem stop_writes_fresh_signed_session (buffer : List LogEvent) (fs : FileSystem)
    (now : Int) (hne : buffer ≠ [])
    (hfresh : fs.any (fun f => f.1 = sessionFileName now) = false) :
    (stopHandler buffer fs now true true).files
      = fs ++ [(sessionFileName now,
          prettySession { header := { version := "1.0", algorithm := "HMAC-SHA256" },
                          payload := buffer,
                          signature := computeSignature buffer })]
    ∧ (stopHandler buffer fs now true true).buffer = []
    ∧ (stopHandler buffer fs now true true).errorDialogs = [] := by
  cases buffer with
  | nil => exact absurd rfl hne
  | cons e rest =>
    refine ⟨?_, by simp [stopHandler], by simp [stopHandler]⟩
    show fsWrite fs (sessionFileName now) (sessionFileContent (e :: rest)) = _
    unfold fsWrite
    rw [hfresh]
    simp [sessionFileContent, save_signed_session]

/-- Witness for C8 (amended): a stop at second 123 over a filesystem
holding one unrelated file appends the new session file and clears the
buffer. -/
theorem stop_writes_fresh_signed_session_witness :
    (stopHandler [demoEvent] [("other.txt", "x")] 123 true true).files
      = [("other.txt", "x")]
        ++ [(sessionFileName 123,
             prettySession { header := { version := "1.0", algorithm := "HMAC-SHA256" },
                             payload := [demoEvent],
                             signature := computeSignature [demoEvent] })]
    ∧ (stopHandler [demoEvent] [("other.txt", "x")] 123 true true).buffer = []
    ∧ (stopHandler [demoEvent] [("other.txt", "x")] 123 true true).errorDialogs = [] :=
  stop_writes_fresh_signed_session [demoEvent] [("other.txt", "x")] 123
    (by decide) (by decide)

/-- Counterexample for C9 as stated: the stop drain is two separate
lock-protected sections (save, then clear), so the trace save – append –
clear is a legal interleaving; starting from a buffer holding demoEvent,
the interleaved append of demoEvent2 is wiped by the clear while only
demoEvent was ever persisted — an event appended during the stop is
cleared without being persisted. -/
theorem append_between_save_and_clear_counterexample :
    (runTrace { buffer := [demoEvent], files := [], persisted := [] }
        [.stopSaveSection 100 true true, .procAppendSection demoEvent2,
         .stopClearSection]).buffer = []
    ∧ (runTrace { buffer := [demoEvent], files := [], persisted := [] }
        [.stopSaveSection 100 true true, .procAppendSection demoEvent2,
         .stopClearSection]).persisted = [demoEvent]
    ∧ demoEvent2 ∉ ([demoEvent] : List LogEvent) := by
  refine ⟨rfl, by decide, by decide⟩

/-- Claim C9 (amended): the stop-time drain of the shared buffer is not
one critical section but two — the save section and the clear section —
and a processor append interleaved between them is lost: after the trace
save – append – clear, the buffer is empty and the appended event was
never persisted (unless it already was beforehand). -/
theorem append_between_save_and_clear_is_lost (s : SharedState) (e : LogEvent)
    (now : Int) (pathOk saveOk : Bool)
    (he1 : e ∉ s.persisted) (he2 : e ∉ s.buffer) :
    (runTrace s [.stopSaveSection now pathOk saveOk, .procAppendSection e,
                 .stopClearSection]).buffer = []
    ∧ e ∉ (runTrace s [.stopSaveSection now pathOk saveOk, .procAppendSection e,
                       .stopClearSection]).persisted := by
  by_cases hb : s.buffer.isEmpty <;> cases pathOk <;> cases saveOk <;>
    simp [runTrace, runAction, hb, List.mem_append, he1, he2]

/-- Witness for C9 (amended): the concrete interleaved trace loses the
concrete appended event. -/
theorem append_between_save_and_clear_is_lost_witness :
    (runTrace { buffer := [demoEvent], files := [], persisted := [] }
        [.stopSaveSection 100 true true, .procAppendSection demoEvent2,
         .stopClearSection]).buffer = []
    ∧ demoEvent2 ∉ (runTrace { buffer := [demoEvent], files := [], persisted := [] }
        [.stopSaveSection 100 true true, .procAppendSection demoEvent2,
         .stopClearSection]).persisted :=
  append_between_save_and_clear_is_lost
    { buffer := [demoEvent], files := [], persisted := [] } demoEvent2 100 true true
    (by decide) (by decide)

/-- Claim C10: the stored signature is computed over the compact
serialization of the payload, while the file stores the payload
pretty-printed; re-serializing the payload compactly and hashing it with
the salt re-derives the signature for every buffer, whereas hashing the
payload bytes as they appear in the file (the pretty form) yields a
different value on a concrete buffer. -/
theorem signature_over_compact_not_pretty :
    (∀ buffer : List LogEvent,
        (save_signed_session buffer).signature
          = hexEncode (sha256 (utf8Encode (payloadToJson (save_signed_session buffer).payload)
                               ++ utf8Encode SALT))
        ∧ sessionFileContent buffer = prettySession (save_signed_session buffer))
    ∧ prettyPayload [demoEvent] ≠ payloadToJson [demoEvent]
    ∧ hexEncode (sha256 (utf8Encode (prettyPayload [demoEvent]) ++ utf8Encode SALT))
        ≠ (save_signed_session [demoEvent]).signature := by
  refine ⟨fun buffer => ⟨rfl, rfl⟩, by decide, by decide⟩

/-- Witness for C10: the compact re-derivation at a concrete buffer. -/
theorem signature_over_compact_not_pretty_witness :
    (save_signed_session [demoEvent2]).signature
      = hexEncode (sha256 (utf8Encode (payloadToJson (save_signed_session [demoEvent2]).payload)
                           ++ utf8Encode SALT)) :=
  (signature_over_compact_not_pretty.1 [demoEvent2]).1

end Ghostwriter
